import Mathlib

/-! Verification development for the ownCloud WebDAV adapter module of this
repository (src/modules/csync_owncloud.c).  C strings are modelled as lists
of byte values (`List Nat`), machine integers as `Int`/`Nat`, and each call
into the external neon transport library is modelled as an explicit oracle
input recording the outcome the library reported.  Definitions follow the C
source; external constants (errno values, neon result codes, POSIX mode
bits, csync_vio field masks) come from the system and support headers that
are not part of this module. -/

/-! Errno values used by the adapter (numeric values as on Linux; only their
distinctness matters to the translation claims). -/

abbrev EPERM : Nat := 1
abbrev ENOENT : Nat := 2
abbrev EIO_errno : Nat := 5
abbrev EAGAIN : Nat := 11
abbrev ENOMEM : Nat := 12
abbrev EACCES : Nat := 13
abbrev EINVAL : Nat := 22
abbrev ENOSPC : Nat := 28

/-! Result codes of the neon library (ne_utils.h of the external neon
dependency). -/

abbrev NE_OK : Int := 0
abbrev NE_ERROR : Int := 1
abbrev NE_LOOKUP : Int := 2
abbrev NE_AUTH : Int := 3
abbrev NE_PROXYAUTH : Int := 4
abbrev NE_CONNECT : Int := 5
abbrev NE_TIMEOUT : Int := 6
abbrev NE_FAILED : Int := 7
abbrev NE_RETRY : Int := 8
abbrev NE_REDIRECT : Int := 9

/-- Embedding of `ne_session_error_errno` (csync_owncloud.c lines 134-205):
the switch translating the HTTP-like status code parsed out of the session
error string into an errno value.  The branch groups mirror the C `case`
fall-through groups exactly; the C also returns `EIO_errno` when no number can be
parsed from the error string, which is the same value as the default branch
here. -/
def ne_session_error_errno (err : Int) : Nat :=
  if err = 200 ∨ err = 201 ∨ err = 202 ∨ err = 203 ∨ err = 204 ∨ err = 205 ∨
     err = 207 ∨ err = 304 then 0
  else if err = 401 ∨ err = 402 ∨ err = 407 then EPERM
  else if err = 301 ∨ err = 303 ∨ err = 404 ∨ err = 410 then ENOENT
  else if err = 408 ∨ err = 504 then EAGAIN
  else if err = 423 then EACCES
  else if err = 400 ∨ err = 403 ∨ err = 405 ∨ err = 409 ∨ err = 411 ∨
          err = 412 ∨ err = 414 ∨ err = 415 ∨ err = 424 ∨ err = 501 then EINVAL
  else if err = 413 ∨ err = 507 then ENOSPC
  else if err = 206 ∨ err = 300 ∨ err = 302 ∨ err = 305 ∨ err = 306 ∨
          err = 307 ∨ err = 406 ∨ err = 416 ∨ err = 417 ∨ err = 422 ∨
          err = 500 ∨ err = 502 ∨ err = 503 ∨ err = 505 then EIO_errno
  else EIO_errno

/-- Embedding of `ne_error_to_errno` (csync_owncloud.c lines 207-231): the
switch translating a neon transport result code into an errno value. -/
def ne_error_to_errno (ne_err : Int) : Nat :=
  if ne_err = NE_OK ∨ ne_err = NE_ERROR then 0
  else if ne_err = NE_AUTH ∨ ne_err = NE_PROXYAUTH then EACCES
  else if ne_err = NE_CONNECT ∨ ne_err = NE_TIMEOUT ∨ ne_err = NE_RETRY then EAGAIN
  else if ne_err = NE_FAILED then EINVAL
  else if ne_err = NE_REDIRECT then ENOENT
  else if ne_err = NE_LOOKUP then EIO_errno
  else EIO_errno

/-! Resource catalog data model (csync_owncloud.c lines 45-90).  URIs, names
and property strings are byte sequences; `modtime` is `Option Int` because
the C leaves the field unassigned when the server omits the last-modified
property. -/

inductive resource_type where
  | resr_normal
  | resr_collection
  | resr_reference
  | resr_error
  deriving DecidableEq, Repr

open resource_type

/-- Embedding of `struct resource` (csync_owncloud.c lines 70-79); the
`next` pointer is represented by membership in a `List resource`. -/
structure resource where
  uri : List Nat
  name : List Nat
  type : resource_type
  size : Nat
  modtime : Option Int
  deriving DecidableEq, Repr

/-- Byte-wise C string comparison (`strcmp`), returning the sign of the
first differing byte pair (-1, 0, or 1; the C only uses the sign). -/
def strcmp : List Nat → List Nat → Int
  | [], [] => 0
  | [], _ :: _ => -1
  | _ :: _, [] => 1
  | a :: as, b :: bs => if a < b then -1 else if b < a then 1 else strcmp as bs

/-- Embedding of `compare_resource` (csync_owncloud.c lines 352-378): `re`
starts at -1 and the branch structure of the C function is reproduced
exactly (errors first, then collections, then byte-wise by URI). -/
def compare_resource (r1 r2 : resource) : Int :=
  if r1.type = resr_error then -1
  else if r2.type = resr_error then 1
  else if r1.type = resr_collection then
    (if r2.type ≠ resr_collection then -1 else strcmp r1.uri r2.uri)
  else
    (if r2.type ≠ resr_collection then strcmp r1.uri r2.uri else 1)

/-- Embedding of the linear-scan insertion in the `results` callback
(csync_owncloud.c lines 449-461): walk forward while the current element
compares below the new one, splice the new element in before the first
element with `compare_resource current newres >= 0`. -/
def insert_resource (newres : resource) : List resource → List resource
  | [] => [newres]
  | current :: rest =>
    if compare_resource current newres ≥ 0 then newres :: current :: rest
    else current :: insert_resource newres rest

/-- Tier of a resource kind in the catalog order: errors first, then
collections, then normal entries; reference entries take the final branch
of `compare_resource`, i.e. the same tier as normal entries. -/
def tier : resource_type → Nat
  | resr_error => 0
  | resr_collection => 1
  | resr_normal => 2
  | resr_reference => 2

/-- Order invariant maintained by `insert_resource`: lower tier first, and
inside a non-error tier the URIs are non-decreasing byte-wise. -/
def resource_le (a b : resource) : Prop :=
  tier a.type < tier b.type ∨
    (tier a.type = tier b.type ∧ (a.type ≠ resr_error → strcmp a.uri b.uri ≤ 0))

/-- Three-tier order stated by the specification: every Error entry before
every Collection entry, every Collection entry before every Normal entry,
and byte-wise non-decreasing URIs inside the Collection tier and inside the
Normal tier. -/
def claim_order (a b : resource) : Prop :=
  (a.type = resr_collection → b.type ≠ resr_error) ∧
  (a.type = resr_normal → b.type ≠ resr_error ∧ b.type ≠ resr_collection) ∧
  (a.type = resr_collection → b.type = resr_collection → strcmp a.uri b.uri ≤ 0) ∧
  (a.type = resr_normal → b.type = resr_normal → strcmp a.uri b.uri ≤ 0)

/-! Parsing of a single PropFind result entry (`results`, csync_owncloud.c
lines 387-467). -/

/-- ASCII bytes of a literal string. -/
def ascii (s : String) : List Nat := s.toList.map Char.toNat

/-- Byte sequence of the literal `<DAV:collection>` against which the
resourcetype property is compared with `strncmp(.., .., 16)`. -/
def dav_collection_bytes : List Nat := ascii "<DAV:collection>"

/-- Collection test of the `results` callback: the resourcetype property is
present and its first 16 bytes equal `<DAV:collection>`. -/
def is_collection_resourcetype : Option (List Nat) → Bool
  | none => false
  | some rt => rt.take 16 == dav_collection_bytes

/-- ASCII decimal digit test. -/
def isDigit (b : Nat) : Bool := 48 ≤ b && b ≤ 57

/-- ASCII whitespace test (the characters `strtol` skips). -/
def isSpace (b : Nat) : Bool := b == 32 || (9 ≤ b && b ≤ 13)

/-- Leading decimal digit run of a byte string: the parsed value and the
remaining bytes (the final position of `strtol`'s end pointer). -/
def parse_digits : List Nat → Nat → Nat × List Nat
  | [], acc => (acc, [])
  | b :: rest, acc =>
    if isDigit b then parse_digits rest (acc * 10 + (b - 48)) else (acc, b :: rest)

/-- Content-length parsing of the `results` callback (csync_owncloud.c
lines 436-443): `DAV_STRTOL(clength, &p, 10)` followed by `if (*p) size =
0` — any trailing non-numeric data yields size 0.  Leading whitespace is
skipped as `strtol` does; a sign prefix never occurs in a content length
and is not modelled. -/
def parse_content_length (s : List Nat) : Nat :=
  let t := s.dropWhile isSpace
  let r := parse_digits t 0
  if r.2.isEmpty then r.1 else 0

/-- Modelled from the spec: `c_basename` (from the c_lib support library,
outside this module's source) derives the name as the final path segment of
the URI — trailing path separators are dropped, then the bytes after the
last separator are taken. -/
def c_basename (p : List Nat) : List Nat :=
  (((p.reverse.dropWhile (fun b => b == 47)).takeWhile (fun b => b != 47))).reverse

/-- Property values delivered for one PropFind result entry, in the order
of `ls_props` (csync_owncloud.c lines 113-119): last-modified, content
length, resourcetype, content type.  `none` models a NULL property. -/
structure prop_set where
  modtime : Option (List Nat)
  clength : Option (List Nat)
  resourcetype : Option (List Nat)
  contenttype : Option (List Nat)
  deriving DecidableEq, Repr

/-- One entry delivered by the server to the `results` callback: the path
of its URI plus the fetched property set.  Paths are modelled as the byte
sequences the catalog stores; `ne_path_unescape` (external neon library) is
percent-decoding and does not change equality of corresponding paths. -/
structure raw_entry where
  path : List Nat
  props : prop_set
  deriving DecidableEq, Repr

/-- Embedding of `struct listdir_context` (csync_owncloud.c lines 84-90);
the cursor (`currResource`) is kept implicitly as a list suffix by the
readdir model and is omitted here. -/
structure listdir_context where
  list : List resource
  target : List Nat
  include_target : Bool
  result_count : Nat
  deriving DecidableEq, Repr

/-- Embedding of the `results` callback body for a single delivered entry
(csync_owncloud.c lines 387-467).  `ne_path_compare` (external neon) is
modelled as path equality per the spec ("skip it if its URI equals the
target URI"); `ne_httpdate_parse` (external neon) is the `parse_date`
oracle argument.  The C leaves `size` unassigned when no content length was
reported; per the data-model spec it is read as 0. -/
def results (parse_date : List Nat → Int) (fetchCtx : listdir_context)
    (e : raw_entry) : listdir_context :=
  if fetchCtx.target = e.path ∧ fetchCtx.include_target = false then fetchCtx
  else
    let newres : resource :=
      { uri := e.path
        name := c_basename e.path
        type :=
          if e.props.clength = none ∧ is_collection_resourcetype e.props.resourcetype
          then resr_collection else resr_normal
        size :=
          match e.props.clength with
          | none => 0
          | some s => parse_content_length s
        modtime := e.props.modtime.map parse_date }
    { fetchCtx with
        list := insert_resource newres fetchCtx.list
        result_count := fetchCtx.result_count + 1 }

/-- Embedding of `fetch_resource_list` (csync_owncloud.c lines 485-499) on
the successful path: every entry delivered by the server is handed to the
`results` callback in server order, starting from the empty catalog set up
by the caller (`_opendir` / `_stat`). -/
def fetch_resource_list (parse_date : List Nat → Int) (target : List Nat)
    (include_target : Bool) (entries : List raw_entry) : listdir_context :=
  entries.foldl (results parse_date)
    { list := [], target := target, include_target := include_target, result_count := 0 }

/-! Stat machinery (csync_owncloud.c lines 504-535, 945-974, 1026-1131). -/

/-- File type constants CSYNC_VIO_FILE_TYPE_REGULAR / _DIRECTORY from
csync_vio_file_stat.h (support header outside this module). -/
inductive file_type where
  | regular
  | directory
  deriving DecidableEq, Repr

/-! Field-presence bitmask constants CSYNC_VIO_FILE_STAT_FIELDS_* from
csync_vio_file_stat.h (support header outside this module); modelled as
distinct bits, which is all the adapter relies on. -/

abbrev CSYNC_VIO_FILE_STAT_FIELDS_NONE : Nat := 0
abbrev CSYNC_VIO_FILE_STAT_FIELDS_TYPE : Nat := 1
abbrev CSYNC_VIO_FILE_STAT_FIELDS_SIZE : Nat := 2
abbrev CSYNC_VIO_FILE_STAT_FIELDS_MTIME : Nat := 4
abbrev CSYNC_VIO_FILE_STAT_FIELDS_PERMISSIONS : Nat := 8

/-- Embedding of `csync_vio_file_stat_t` as used by this module: the fields
the adapter assigns.  `type` and `mode` are `Option` because the C leaves
them unassigned on some paths (`none` = never assigned). -/
structure csync_vio_file_stat where
  name : List Nat
  fields : Nat
  type : Option file_type
  mtime : Option Int
  size : Nat
  mode : Option Nat
  deriving DecidableEq, Repr

/-- Embedding of `resourceToFileStat` (csync_owncloud.c lines 504-535) on a
non-NULL resource: name is copied, the TYPE field bit and the type are set
only for normal and collection resources (the C leaves `type` unassigned
otherwise), then mtime and size are copied with their field bits. -/
def resourceToFileStat (res : resource) : csync_vio_file_stat :=
  let tf : Option file_type × Nat :=
    match res.type with
    | resr_normal =>
        (some file_type.regular,
         CSYNC_VIO_FILE_STAT_FIELDS_NONE ||| CSYNC_VIO_FILE_STAT_FIELDS_TYPE)
    | resr_collection =>
        (some file_type.directory,
         CSYNC_VIO_FILE_STAT_FIELDS_NONE ||| CSYNC_VIO_FILE_STAT_FIELDS_TYPE)
    | _ => (none, CSYNC_VIO_FILE_STAT_FIELDS_NONE)
  { name := res.name
    fields := (tf.2 ||| CSYNC_VIO_FILE_STAT_FIELDS_MTIME) ||| CSYNC_VIO_FILE_STAT_FIELDS_SIZE
    type := tf.1
    mtime := res.modtime
    size := res.size
    mode := none }

/-! POSIX mode bits (sys/stat.h) used by `_stat_perms`. -/

abbrev S_IFDIR : Nat := 16384
abbrev S_IFREG : Nat := 32768
abbrev S_IRUSR : Nat := 256
abbrev S_IWUSR : Nat := 128
abbrev S_IXUSR : Nat := 64
abbrev S_IRGRP : Nat := 32
abbrev S_IXGRP : Nat := 8
abbrev S_IROTH : Nat := 4
abbrev S_IXOTH : Nat := 1

/-- Embedding of `_stat_perms` (csync_owncloud.c lines 1026-1043): WebDAV
delivers no permissions, so a fixed directory mode is synthesized for the
directory type and a fixed file mode for everything else. -/
def _stat_perms (t : Option file_type) : Nat :=
  if t = some file_type.directory then
    S_IFDIR ||| S_IRUSR ||| S_IWUSR ||| S_IXUSR ||| S_IRGRP ||| S_IXGRP ||| S_IROTH ||| S_IXOTH
  else
    S_IFREG ||| S_IRUSR ||| S_IWUSR ||| S_IRGRP ||| S_IROTH

/-- Embedding of the stat-cache update performed by `_readdir`
(csync_owncloud.c lines 957-970): the static `_fs` receives name, mtime,
fields, type and size of the file stat translated from the current catalog
resource.  The C checks `_fs.name` for NULL before using the cache; a cache
value of `some` models a non-NULL `_fs.name`. -/
def readdir_cache_update (res : resource) : csync_vio_file_stat :=
  let lfs := resourceToFileStat res
  { name := lfs.name
    mtime := lfs.mtime
    fields := lfs.fields
    type := lfs.type
    size := lfs.size
    mode := none }

/-- Outcome of a `_stat` call: the filled stat buffer, the return value,
the errno assignment if any, and whether a PropFind network request was
issued. -/
structure stat_outcome where
  buf : csync_vio_file_stat
  ret : Int
  errno_set : Option Nat
  used_network : Bool
  deriving DecidableEq, Repr

/-- Slow path of `_stat` (csync_owncloud.c lines 1081-1127): a PropFind is
issued (`used_network = true`); on a non-NE_OK result errno is set from
`ne_error_to_errno` and -1 returned; otherwise the first listed resource is
translated by `resourceToFileStat` and copied into the buffer together with
permissions from `_stat_perms`; an empty result leaves the buffer fields at
their initial values and still returns 0. -/
def _stat_propfind (bname : List Nat) (fetch_rc : Int)
    (fetch_list : List resource) : stat_outcome :=
  if fetch_rc ≠ NE_OK then
    { buf := { name := bname, fields := 0, type := none, mtime := none, size := 0, mode := none }
      ret := -1
      errno_set := some (ne_error_to_errno fetch_rc)
      used_network := true }
  else
    match fetch_list with
    | [] =>
      { buf := { name := bname, fields := 0, type := none, mtime := none, size := 0, mode := none }
        ret := 0
        errno_set := none
        used_network := true }
    | res :: _ =>
      let lfs := resourceToFileStat res
      { buf := { name := bname
                 fields := lfs.fields
                 type := lfs.type
                 mtime := lfs.mtime
                 size := lfs.size
                 mode := some (_stat_perms lfs.type) }
        ret := 0
        errno_set := none
        used_network := true }

/-- Embedding of `_stat` (csync_owncloud.c lines 1045-1131).  The buffer
name is the base name of the queried URI.  If the static cache `_fs` holds
a name equal to it, the cached fields, type, mtime and size are returned
with permissions synthesized by `_stat_perms` and no network request is
made; otherwise the PropFind slow path runs (its outcome is supplied by the
`fetch_rc` / `fetch_list` oracle arguments). -/
def _stat (fs : Option csync_vio_file_stat) (uri : List Nat)
    (fetch_rc : Int) (fetch_list : List resource) : stat_outcome :=
  let bname := c_basename uri
  match fs with
  | some cache =>
    if bname = cache.name then
      { buf := { name := bname
                 fields := cache.fields
                 type := cache.type
                 mtime := cache.mtime
                 size := cache.size
                 mode := some (_stat_perms cache.type) }
        ret := 0
        errno_set := none
        used_network := false }
    else _stat_propfind bname fetch_rc fetch_list
  | none => _stat_propfind bname fetch_rc fetch_list

/-! Transfer context close (csync_owncloud.c lines 784-845). -/

/-- The HTTP method stored in `transfer_context.method` by `_open`. -/
inductive http_method where
  | PUT
  | GET
  deriving DecidableEq, Repr

/-- Inputs of one `_close` call on a valid (non-NULL) handle: the handle
state set up by `_open` plus oracle outcomes of the local file operations
and of `ne_request_dispatch` / `ne_get_status` on the neon request. -/
structure close_env where
  method : http_method
  fd : Int
  close_ok : Bool
  reopen_ok : Bool
  fstat_ok : Bool
  dispatch_rc : Int
  status_klass : Nat
  deriving DecidableEq, Repr

/-- Observable outcome of `_close`: the return value, whether the local
temporary file was removed by `unlink` before the handle was freed, whether
the pending PUT request was dispatched, and whether the non-2xx diagnostic
branch was taken.  No branch of the C function assigns `errno`: the
`ne_session_error_errno` call on the dispatch-failure branch discards its
result. -/
structure close_outcome where
  ret : Int
  tmp_file_removed : Bool
  dispatched : Bool
  logged_non_2xx : Bool
  deriving DecidableEq, Repr

/-- Embedding of `_close` (csync_owncloud.c lines 784-845) for a valid
handle.  PUT: close the descriptor (a failure sets ret to -1 but the flow
continues), reopen the temp file read-only (failure: -1, no dispatch),
fstat it (failure sets -1, but the flow continues), dispatch the request;
if the dispatch result is NE_OK a non-2xx status class is only logged,
otherwise ret becomes -1.  GET: close the descriptor if open.  Both paths
end with `unlink(tmpFileName)` before freeing the handle. -/
def _close (env : close_env) : close_outcome :=
  match env.method with
  | http_method.PUT =>
    if env.fd > -1 then
      let ret1 : Int := if env.close_ok then 0 else -1
      if env.reopen_ok = false then
        { ret := -1, tmp_file_removed := true, dispatched := false, logged_non_2xx := false }
      else
        let ret2 : Int := if env.fstat_ok then ret1 else -1
        if env.dispatch_rc = NE_OK then
          { ret := ret2
            tmp_file_removed := true
            dispatched := true
            logged_non_2xx := env.status_klass != 2 }
        else
          { ret := -1, tmp_file_removed := true, dispatched := true, logged_non_2xx := false }
    else
      { ret := 0, tmp_file_removed := true, dispatched := false, logged_non_2xx := false }
  | http_method.GET =>
    { ret := 0, tmp_file_removed := true, dispatched := false, logged_non_2xx := false }

/-! Connection establishment (csync_owncloud.c lines 275-346). -/

/-- The protocol string written into the `protocol` buffer of
`dav_connect`. -/
inductive protocol where
  | http
  | https
  deriving DecidableEq, Repr

/-- Embedding of the scheme resolution in `dav_connect` (csync_owncloud.c
lines 298-302).  The C writes into the stack buffer `protocol` only in the
two branches shown: the first branch tests `strcmp(scheme, "owncloud") ==
0`, but the second tests the raw value `strcmp(scheme, "ownclouds")`, which
is true exactly when the scheme is NOT "ownclouds".  `none` models the
buffer being left uninitialized (no branch taken). -/
def resolve_protocol (scheme : String) : Option protocol :=
  if scheme = "owncloud" then some protocol.http
  else if ¬ (scheme = "ownclouds") then some protocol.https
  else none

/-- Parsed URI as returned by `ne_uri_parse` (external neon). -/
structure dav_uri where
  scheme : String
  host : String
  port : Nat
  userinfo : Option String
  deriving DecidableEq, Repr

/-- Inputs of one `dav_connect` call: the `_connected` flag, the parse
outcome, and the oracle results of `ne_sock_init` and
`ne_session_create`. -/
structure connect_env where
  connected : Bool
  parse : Option dav_uri
  sock_init_ok : Bool
  session_create_ok : Bool
  deriving DecidableEq, Repr

/-- Observable outcome of `dav_connect`: the return code, the `_connected`
flag afterwards, the protocol value resolved from the scheme (as passed to
`ne_uri_defaultport` and `ne_session_create`; `none` = uninitialized
buffer), and the port used (`none` while no defined port exists). -/
structure connect_outcome where
  rc : Int
  connected : Bool
  protocol_used : Option protocol
  port_used : Option Nat
  deriving DecidableEq, Repr

/-- Embedding of `dav_connect` (csync_owncloud.c lines 275-346).  When
already connected it returns 0 immediately.  Otherwise the URI is parsed
(failure: negative rc), the scheme is resolved by `resolve_protocol`, a
zero port is replaced by `ne_uri_defaultport` of the resolved protocol (80
for http, 443 for https — external neon behaviour), and the socket layer
and session are initialized with that protocol.  The credential extraction
from the userinfo component (lines 304-314) does not affect these outputs
and is not modelled. -/
def dav_connect (env : connect_env) : connect_outcome :=
  if env.connected then
    { rc := 0, connected := true, protocol_used := none, port_used := none }
  else
    match env.parse with
    | none => { rc := -1, connected := false, protocol_used := none, port_used := none }
    | some uri =>
      let prot := resolve_protocol uri.scheme
      let port : Option Nat :=
        if uri.port = 0 then
          match prot with
          | some protocol.http => some 80
          | some protocol.https => some 443
          | none => none
        else some uri.port
      if env.sock_init_ok = false then
        { rc := -1, connected := false, protocol_used := prot, port_used := port }
      else if env.session_create_ok = false then
        { rc := -1, connected := false, protocol_used := prot, port_used := port }
      else
        { rc := 0, connected := true, protocol_used := prot, port_used := port }

/-! Open and unlink (csync_owncloud.c lines 658-772, 1164-1186). -/

/-- The open flags `_open` inspects (O_WRONLY, O_RDWR, O_CREAT). -/
structure open_flags where
  o_wronly : Bool
  o_rdwr : Bool
  o_creat : Bool
  deriving DecidableEq, Repr

/-- Inputs of one `_open` call: outcomes of `_cleanPath`, of the parent
directory `_stat` (consulted only in write mode), of `mkstemp`, and of the
request setup / download calls. -/
structure open_env where
  clean_path_ok : Bool
  parent_stat_ok : Bool
  mkstemp_ok : Bool
  begin_request_rc : Int
  get_rc : Int
  get_close_ok : Bool
  deriving DecidableEq, Repr

/-- Observable outcome of `_open`: whether a non-NULL handle was returned,
the errno assignment if any, and whether a local temporary file was created
by `mkstemp`.  On the late failure paths the C calls `ne_error_to_errno(rc)`
but discards the result, so no errno is assigned there. -/
structure open_outcome where
  handle : Bool
  errno_set : Option Nat
  temp_file_created : Bool
  deriving DecidableEq, Repr

/-- Embedding of `_open` (csync_owncloud.c lines 658-772).  rc starts at
NE_OK and becomes NE_ERROR if `_cleanPath` fails; write mode (`put`) holds
if any of O_WRONLY, O_RDWR, O_CREAT is set.  In write mode with rc still
NE_OK the parent directory is stat-ed first: if that fails, errno is set to
ENOENT and NULL returned before any temporary file exists.  Only afterwards
is the temp file created with `mkstemp` (failure: rc = NE_ERROR); then the
PUT request is begun (request creation by `ne_request_create` is modelled
as succeeding, with the outcome carried by the `ne_begin_request` oracle),
or for read mode the full download is performed and the local descriptor
closed (close failure: rc = NE_ERROR).  A final rc ≠ NE_OK frees the
context and returns NULL. -/
def _open (flags : open_flags) (env : open_env) : open_outcome :=
  let rc0 : Int := if env.clean_path_ok then NE_OK else NE_ERROR
  let put : Bool := flags.o_wronly || flags.o_rdwr || flags.o_creat
  if rc0 = NE_OK ∧ put = true ∧ env.parent_stat_ok = false then
    { handle := false, errno_set := some ENOENT, temp_file_created := false }
  else
    let temp_created : Bool := if rc0 = NE_OK then env.mkstemp_ok else false
    let rc1 : Int := if rc0 = NE_OK ∧ env.mkstemp_ok = false then NE_ERROR else rc0
    let rc2 : Int :=
      if rc1 = NE_OK ∧ put = true then env.begin_request_rc
      else if rc1 = NE_OK ∧ put = false then
        (if env.get_close_ok then env.get_rc else NE_ERROR)
      else rc1
    if rc2 = NE_OK then
      { handle := true, errno_set := none, temp_file_created := temp_created }
    else
      { handle := false, errno_set := none, temp_file_created := temp_created }

/-- Inputs of one `_unlink` call: outcomes of `_cleanPath`, `dav_connect`
and `ne_delete`. -/
structure unlink_env where
  clean_path_ok : Bool
  connect_rc : Int
  delete_rc : Int
  deriving DecidableEq, Repr

/-- Observable outcome of `_unlink`: the value returned to the caller and
the last errno assignment if any. -/
structure unlink_outcome where
  ret : Int
  errno_set : Option Nat
  deriving DecidableEq, Repr

/-- Embedding of `_unlink` (csync_owncloud.c lines 1164-1186).  rc starts
at NE_OK; a NULL `_cleanPath` result sets rc = NE_ERROR and errno = EINVAL;
with rc still NE_OK, `dav_connect` runs and a negative result sets errno =
EINVAL; with rc still NE_OK, `ne_delete` runs and a non-NE_OK result sets
errno from `ne_error_to_errno`.  The function always returns 0. -/
def _unlink (env : unlink_env) : unlink_outcome :=
  let s1 : Int × Option Nat :=
    if env.clean_path_ok then (NE_OK, none) else (NE_ERROR, some EINVAL)
  let s2 : Int × Option Nat :=
    if s1.1 = NE_OK then
      (env.connect_rc, if env.connect_rc < 0 then some EINVAL else s1.2)
    else s1
  let s3 : Option Nat :=
    if s2.1 = NE_OK then
      (if env.delete_rc ≠ NE_OK then some (ne_error_to_errno env.delete_rc) else s2.2)
    else s2.2
  { ret := 0, errno_set := s3 }

/-! Helper lemmas about the byte-wise comparison. -/

theorem strcmp_nil_le : ∀ b : List Nat, strcmp [] b ≤ 0
  | [] => by norm_num [strcmp]
  | _ :: _ => by norm_num [strcmp]

theorem strcmp_antisym : ∀ a b : List Nat, strcmp b a = - strcmp a b
  | [], [] => by simp [strcmp]
  | [], _ :: _ => by simp [strcmp]
  | _ :: _, [] => by simp [strcmp]
  | x :: xs, y :: ys => by
    simp only [strcmp]
    rcases Nat.lt_trichotomy x y with h | h | h
    · rw [if_neg (by omega : ¬ y < x), if_pos h, if_pos h]; norm_num
    · rw [if_neg (by omega : ¬ y < x), if_neg (by omega : ¬ x < y),
        if_neg (by omega : ¬ x < y), if_neg (by omega : ¬ y < x)]
      rw [strcmp_antisym xs ys]
    · rw [if_pos h, if_neg (by omega : ¬ x < y), if_pos h]

theorem strcmp_le_trans : ∀ a b c : List Nat,
    strcmp a b ≤ 0 → strcmp b c ≤ 0 → strcmp a c ≤ 0
  | [], _, c => fun _ _ => strcmp_nil_le c
  | _ :: _, [], _ => by
    intro h1 _
    simp only [strcmp] at h1
    omega
  | _ :: _, _ :: _, [] => by
    intro _ h2
    simp only [strcmp] at h2
    omega
  | x :: xs, y :: ys, z :: zs => by
    intro h1 h2
    simp only [strcmp] at h1 h2 ⊢
    rcases Nat.lt_trichotomy x y with hxy | hxy | hxy
    · rcases Nat.lt_trichotomy y z with hyz | hyz | hyz
      · rw [if_pos (hxy.trans hyz)]; norm_num
      · rw [if_pos (by omega : x < z)]; norm_num
      · rw [if_neg (by omega : ¬ y < z), if_pos hyz] at h2; omega
    · rcases Nat.lt_trichotomy y z with hyz | hyz | hyz
      · rw [if_pos (by omega : x < z)]; norm_num
      · rw [if_neg (by omega : ¬ x < y), if_neg (by omega : ¬ y < x)] at h1
        rw [if_neg (by omega : ¬ y < z), if_neg (by omega : ¬ z < y)] at h2
        rw [if_neg (by omega : ¬ x < z), if_neg (by omega : ¬ z < x)]
        exact strcmp_le_trans xs ys zs h1 h2
      · rw [if_neg (by omega : ¬ y < z), if_pos hyz] at h2; omega
    · rw [if_neg (by omega : ¬ x < y), if_pos hxy] at h1; omega

/-! Helper lemmas about the catalog order relation. -/

theorem tier_eq_zero_iff (t : resource_type) : tier t = 0 ↔ t = resr_error := by
  cases t <;> simp [tier]

theorem compare_resource_neg {c n : resource} (h : compare_resource c n < 0) :
    resource_le c n := by
  unfold compare_resource at h
  unfold resource_le
  cases hc : c.type <;> cases hn : n.type <;> rw [hc, hn] at h <;>
    simp only [tier, hc, hn] <;> simp_all <;> omega

theorem compare_resource_nonneg {c n : resource} (h : compare_resource c n ≥ 0) :
    resource_le n c := by
  have hs := strcmp_antisym c.uri n.uri
  unfold compare_resource at h
  unfold resource_le
  cases hc : c.type <;> cases hn : n.type <;> rw [hc, hn] at h <;>
    simp only [tier, hc, hn] <;> simp_all

theorem resource_le_trans {a b c : resource}
    (h1 : resource_le a b) (h2 : resource_le b c) : resource_le a c := by
  unfold resource_le at h1 h2 ⊢
  rcases h1 with h1 | ⟨e1, s1⟩
  · rcases h2 with h2 | ⟨e2, s2⟩
    · exact Or.inl (h1.trans h2)
    · exact Or.inl (by omega)
  · rcases h2 with h2 | ⟨e2, s2⟩
    · exact Or.inl (by omega)
    · refine Or.inr ⟨by omega, ?_⟩
      intro ha
      have hta : tier a.type ≠ 0 := fun h0 => ha ((tier_eq_zero_iff a.type).mp h0)
      have hb : b.type ≠ resr_error := by
        intro hbe
        exact hta (by rw [e1]; exact (tier_eq_zero_iff b.type).mpr hbe)
      exact strcmp_le_trans a.uri b.uri c.uri (s1 ha) (s2 hb)

/-! Helper lemmas about the linear-scan insertion. -/

theorem mem_insert_resource {x n : resource} : ∀ {l : List resource},
    x ∈ insert_resource n l → x = n ∨ x ∈ l := by
  intro l
  induction l with
  | nil =>
    intro h
    simp [insert_resource] at h
    exact Or.inl h
  | cons c rest ih =>
    intro h
    unfold insert_resource at h
    split_ifs at h with hc
    · rcases List.mem_cons.mp h with rfl | h
      · exact Or.inl rfl
      · exact Or.inr h
    · rcases List.mem_cons.mp h with rfl | h
      · exact Or.inr (List.mem_cons_self _ _)
      · rcases ih h with h | h
        · exact Or.inl h
        · exact Or.inr (List.mem_cons_of_mem _ h)

theorem pairwise_insert_resource {n : resource} : ∀ {l : List resource},
    List.Pairwise resource_le l → List.Pairwise resource_le (insert_resource n l) := by
  intro l
  induction l with
  | nil => intro _; simp [insert_resource]
  | cons c rest ih =>
    intro hl
    rcases List.pairwise_cons.mp hl with ⟨hc, hrest⟩
    unfold insert_resource
    split_ifs with hcmp
    · refine List.pairwise_cons.mpr ⟨?_, hl⟩
      intro x hx
      have hnc : resource_le n c := compare_resource_nonneg hcmp
      rcases List.mem_cons.mp hx with rfl | hx
      · exact hnc
      · exact resource_le_trans hnc (hc x hx)
    · refine List.pairwise_cons.mpr ⟨?_, ih hrest⟩
      intro x hx
      rcases mem_insert_resource hx with rfl | hx
      · exact compare_resource_neg (by omega)
      · exact hc x hx

theorem insert_resource_perm (n : resource) (l : List resource) :
    List.Perm (insert_resource n l) (n :: l) := by
  induction l with
  | nil => exact List.Perm.refl _
  | cons c rest ih =>
    unfold insert_resource
    split_ifs with h
    · exact List.Perm.refl _
    · exact (List.Perm.cons c ih).trans (List.Perm.swap n c rest)

theorem countP_insert_resource (p : resource → Bool) (n : resource) (l : List resource) :
    (insert_resource n l).countP p = (n :: l).countP p :=
  (insert_resource_perm n l).countP_eq p

/-! Helper lemmas about the results callback. -/

theorem results_preserves_target (pd : List Nat → Int) (ctx : listdir_context)
    (e : raw_entry) : (results pd ctx e).target = ctx.target := by
  unfold results
  split_ifs <;> rfl

theorem results_preserves_include (pd : List Nat → Int) (ctx : listdir_context)
    (e : raw_entry) : (results pd ctx e).include_target = ctx.include_target := by
  unfold results
  split_ifs <;> rfl

theorem results_skip (pd : List Nat → Int) (ctx : listdir_context) (e : raw_entry)
    (h : ctx.target = e.path ∧ ctx.include_target = false) :
    results pd ctx e = ctx := by
  unfold results
  rw [if_pos h]

theorem results_no_skip (pd : List Nat → Int) (ctx : listdir_context) (e : raw_entry)
    (h : ¬(ctx.target = e.path ∧ ctx.include_target = false)) :
    ∃ nr : resource, nr.uri = e.path ∧
      (results pd ctx e).list = insert_resource nr ctx.list := by
  unfold results
  rw [if_neg h]
  exact ⟨_, rfl, rfl⟩

theorem pairwise_foldl_results (pd : List Nat → Int) :
    ∀ (entries : List raw_entry) (ctx : listdir_context),
      List.Pairwise resource_le ctx.list →
      List.Pairwise resource_le ((entries.foldl (results pd) ctx).list) := by
  intro entries
  induction entries with
  | nil => intro ctx h; exact h
  | cons e rest ih =>
    intro ctx h
    rw [List.foldl_cons]
    apply ih
    by_cases hskip : ctx.target = e.path ∧ ctx.include_target = false
    · rw [results_skip pd ctx e hskip]; exact h
    · obtain ⟨nr, _, hl⟩ := results_no_skip pd ctx e hskip
      rw [hl]
      exact pairwise_insert_resource h

theorem resource_le_claim_order {a b : resource} (h : resource_le a b) :
    claim_order a b := by
  unfold resource_le at h
  unfold claim_order
  refine ⟨?_, ?_, ?_, ?_⟩
  · intro ha hb
    rw [ha, hb] at h
    simp [tier] at h
  · intro ha
    constructor
    · intro hb
      rw [ha, hb] at h
      simp [tier] at h
    · intro hb
      rw [ha, hb] at h
      simp [tier] at h
  · intro ha hb
    rw [ha, hb] at h
    simp [tier] at h
    exact h
  · intro ha hb
    rw [ha, hb] at h
    simp [tier] at h
    exact h

/-- C1: every catalog produced by a directory listing satisfies the
three-tier order — in the produced entry sequence every Error-kind entry
precedes every Collection-kind entry, every Collection-kind entry precedes
every Normal-kind entry, and within the Collection tier and within the
Normal tier the URIs are non-decreasing under byte-wise comparison; this
holds for any sequence of entries delivered by the server and inserted one
at a time by the linear-scan insertion of the results callback. -/
theorem C1_catalog_three_tier_order (pd : List Nat → Int) (target : List Nat)
    (inc : Bool) (entries : List raw_entry) :
    List.Pairwise claim_order (fetch_resource_list pd target inc entries).list := by
  have h := pairwise_foldl_results pd entries
    { list := [], target := target, include_target := inc, result_count := 0 }
    List.Pairwise.nil
  exact h.imp (fun hab => resource_le_claim_order hab)

/-- C1 witness: the three-tier order on the concrete listing of a file
entry "/a" and a collection entry "/b" delivered in reverse order. -/
theorem C1_catalog_three_tier_order_witness :
    List.Pairwise claim_order (fetch_resource_list (fun _ => 0) [47] false
      [{ path := [47, 97],
         props := { modtime := none, clength := some [49, 48],
                    resourcetype := none, contenttype := none } },
       { path := [47, 98],
         props := { modtime := none, clength := none,
                    resourcetype := some dav_collection_bytes, contenttype := none } }]).list :=
  C1_catalog_three_tier_order _ _ _ _

/-! Counting lemmas for the target-exclusion claim. -/

theorem foldl_results_countP_exclude (pd : List Nat → Int) (target : List Nat) :
    ∀ (entries : List raw_entry) (ctx : listdir_context),
      ctx.target = target → ctx.include_target = false →
      (entries.foldl (results pd) ctx).list.countP (fun r => r.uri == target) =
        ctx.list.countP (fun r => r.uri == target) := by
  intro entries
  induction entries with
  | nil => intro ctx _ _; rfl
  | cons e rest ih =>
    intro ctx ht hi
    rw [List.foldl_cons,
      ih _ (by rw [results_preserves_target, ht]) (by rw [results_preserves_include, hi])]
    by_cases hskip : ctx.target = e.path ∧ ctx.include_target = false
    · rw [results_skip pd ctx e hskip]
    · obtain ⟨nr, hnr, hl⟩ := results_no_skip pd ctx e hskip
      have hne : ¬ e.path = target := by
        intro hcontra
        exact hskip ⟨by rw [ht, hcontra], hi⟩
      rw [hl, countP_insert_resource, List.countP_cons]
      simp [hnr, hne]

theorem foldl_results_countP_include (pd : List Nat → Int) (target : List Nat) :
    ∀ (entries : List raw_entry) (ctx : listdir_context),
      ctx.include_target = true →
      (entries.foldl (results pd) ctx).list.countP (fun r => r.uri == target) =
        ctx.list.countP (fun r => r.uri == target) +
          entries.countP (fun e => e.path == target) := by
  intro entries
  induction entries with
  | nil => intro ctx _; simp
  | cons e rest ih =>
    intro ctx hi
    rw [List.foldl_cons, ih _ (by rw [results_preserves_include, hi])]
    obtain ⟨nr, hnr, hl⟩ := results_no_skip pd ctx e (by simp [hi])
    rw [hl, countP_insert_resource, List.countP_cons, List.countP_cons]
    simp only [hnr]
    omega

/-- C3: for every directory listing, if inclusion-of-target is false then
no entry whose URI equals the listing target appears in the catalog; if
inclusion-of-target is true and the server delivered the target entry
exactly once (the uniqueness invariant of a PropFind response), it appears
in the catalog exactly once. -/
theorem C3_target_inclusion (pd : List Nat → Int) (target : List Nat)
    (entries : List raw_entry) :
    (fetch_resource_list pd target false entries).list.countP
        (fun r => r.uri == target) = 0 ∧
    (entries.countP (fun e => e.path == target) = 1 →
      (fetch_resource_list pd target true entries).list.countP
        (fun r => r.uri == target) = 1) := by
  constructor
  · rw [fetch_resource_list, foldl_results_countP_exclude pd target entries _ rfl rfl]
    rfl
  · intro h1
    rw [fetch_resource_list, foldl_results_countP_include pd target entries _ rfl, h1]
    rfl

/-- C3 witness: a listing of the target "/d" itself plus one child, with
inclusion enabled, yields the target entry exactly once. -/
theorem C3_target_inclusion_witness :
    (fetch_resource_list (fun _ => 0) [47, 100] true
      [{ path := [47, 100],
         props := { modtime := none, clength := none,
                    resourcetype := some dav_collection_bytes, contenttype := none } },
       { path := [47, 100, 47, 97],
         props := { modtime := none, clength := some [53],
                    resourcetype := none, contenttype := none } }]).list.countP
      (fun r => r.uri == [47, 100]) = 1 :=
  (C3_target_inclusion _ _ _).2 (by decide)

/-- C2 counterexample: 206 is a 2xx status code, yet the translation maps
it to the generic I/O failure EIO_errno instead of success. -/
theorem C2_counterexample_206 :
    (200 ≤ (206 : Int) ∧ (206 : Int) ≤ 299) ∧ ne_session_error_errno 206 ≠ 0 := by
  decide

/-- C2 (amended): the status translation maps exactly 200-205, 207 and 304
to success (206 and 208-299 do not map to success); 401, 402, 407 to
EPERM; 301, 303, 404, 410 to ENOENT; 408, 504 to EAGAIN; 423 to EACCES;
400, 403, 405, 409, 411, 412, 414, 415, 424, 501 to EINVAL; 413, 507 to
ENOSPC; and every other integer input to EIO_errno. -/
theorem C2_http_status_translation :
    (∀ n : Int, (n = 200 ∨ n = 201 ∨ n = 202 ∨ n = 203 ∨ n = 204 ∨ n = 205 ∨
        n = 207 ∨ n = 304) → ne_session_error_errno n = 0) ∧
    (∀ n : Int, (n = 401 ∨ n = 402 ∨ n = 407) → ne_session_error_errno n = EPERM) ∧
    (∀ n : Int, (n = 301 ∨ n = 303 ∨ n = 404 ∨ n = 410) →
      ne_session_error_errno n = ENOENT) ∧
    (∀ n : Int, (n = 408 ∨ n = 504) → ne_session_error_errno n = EAGAIN) ∧
    ne_session_error_errno 423 = EACCES ∧
    (∀ n : Int, (n = 400 ∨ n = 403 ∨ n = 405 ∨ n = 409 ∨ n = 411 ∨ n = 412 ∨
        n = 414 ∨ n = 415 ∨ n = 424 ∨ n = 501) → ne_session_error_errno n = EINVAL) ∧
    (∀ n : Int, (n = 413 ∨ n = 507) → ne_session_error_errno n = ENOSPC) ∧
    (∀ n : Int, ¬(n = 200 ∨ n = 201 ∨ n = 202 ∨ n = 203 ∨ n = 204 ∨ n = 205 ∨
        n = 207 ∨ n = 304 ∨ n = 401 ∨ n = 402 ∨ n = 407 ∨ n = 301 ∨ n = 303 ∨
        n = 404 ∨ n = 410 ∨ n = 408 ∨ n = 504 ∨ n = 423 ∨ n = 400 ∨ n = 403 ∨
        n = 405 ∨ n = 409 ∨ n = 411 ∨ n = 412 ∨ n = 414 ∨ n = 415 ∨ n = 424 ∨
        n = 501 ∨ n = 413 ∨ n = 507) → ne_session_error_errno n = EIO_errno) := by
  refine ⟨?_, ?_, ?_, ?_, by decide, ?_, ?_, ?_⟩
  · intro n h
    rcases h with rfl | rfl | rfl | rfl | rfl | rfl | rfl | rfl <;> decide
  · intro n h
    rcases h with rfl | rfl | rfl <;> decide
  · intro n h
    rcases h with rfl | rfl | rfl | rfl <;> decide
  · intro n h
    rcases h with rfl | rfl <;> decide
  · intro n h
    rcases h with rfl | rfl | rfl | rfl | rfl | rfl | rfl | rfl | rfl | rfl <;> decide
  · intro n h
    rcases h with rfl | rfl <;> decide
  · intro n h
    unfold ne_session_error_errno
    split_ifs <;> first | rfl | omega

/-- C2 witness: the amended mapping evaluated at the concrete inputs 401
(permission denied) and 599 (an unlisted code, generic I/O failure). -/
theorem C2_http_status_translation_witness :
    ne_session_error_errno 401 = EPERM ∧ ne_session_error_errno 599 = EIO_errno :=
  ⟨C2_http_status_translation.2.1 401 (by decide),
   C2_http_status_translation.2.2.2.2.2.2.2 599 (by decide)⟩

set_option maxHeartbeats 1000000 in
/-- C9: the transport-result-code translation is exactly the stated total
mapping — NE_OK and NE_ERROR to success, NE_AUTH and NE_PROXYAUTH to
EACCES, NE_CONNECT, NE_TIMEOUT and NE_RETRY to EAGAIN, NE_FAILED to
EINVAL, NE_REDIRECT to ENOENT, NE_LOOKUP and every unrecognized code to
EIO_errno; being a function of its argument it is pure and yields the same
taxonomy member for the same input on every call. -/
theorem C9_transport_code_translation :
    ne_error_to_errno NE_OK = 0 ∧ ne_error_to_errno NE_ERROR = 0 ∧
    ne_error_to_errno NE_AUTH = EACCES ∧ ne_error_to_errno NE_PROXYAUTH = EACCES ∧
    ne_error_to_errno NE_CONNECT = EAGAIN ∧ ne_error_to_errno NE_TIMEOUT = EAGAIN ∧
    ne_error_to_errno NE_RETRY = EAGAIN ∧ ne_error_to_errno NE_FAILED = EINVAL ∧
    ne_error_to_errno NE_REDIRECT = ENOENT ∧ ne_error_to_errno NE_LOOKUP = EIO_errno ∧
    (∀ n : Int, ¬(n = NE_OK ∨ n = NE_ERROR ∨ n = NE_AUTH ∨ n = NE_PROXYAUTH ∨
        n = NE_CONNECT ∨ n = NE_TIMEOUT ∨ n = NE_RETRY ∨ n = NE_FAILED ∨
        n = NE_REDIRECT ∨ n = NE_LOOKUP) → ne_error_to_errno n = EIO_errno) := by
  refine ⟨by decide, by decide, by decide, by decide, by decide, by decide, by decide,
    by decide, by decide, by decide, ?_⟩
  intro n h
  unfold ne_error_to_errno
  split_ifs <;> first | rfl | omega

/-- C9 witness: the translation evaluated at the unrecognized transport
code 42 yields the generic I/O failure. -/
theorem C9_transport_code_translation_witness :
    ne_error_to_errno 42 = EIO_errno :=
  C9_transport_code_translation.2.2.2.2.2.2.2.2.2.2 42 (by decide)

/-- C4: evaluation of `_close` at the failing input — a write (PUT) handle
whose local close, reopen and fstat succeed, whose upload dispatch returns
NE_OK, and whose final HTTP status has class 4 (non-2xx).  The code takes
the non-2xx diagnostic branch yet returns 0 (success) to the caller,
contradicting the claim that any non-2xx final status is reported as
failure with a translated error code. -/
theorem C4_close_put_non2xx_returns_success :
    _close { method := http_method.PUT, fd := 3, close_ok := true, reopen_ok := true,
             fstat_ok := true, dispatch_rc := NE_OK, status_klass := 4 } =
      { ret := 0, tmp_file_removed := true, dispatched := true, logged_non_2xx := true } := by
  decide

/-- C5: for every valid handle and both open modes, `_close` removes the
local temporary file (the unconditional `unlink` on the common exit path),
on the success path and on every failure path alike, before the handle is
released. -/
theorem C5_close_removes_temp_file (env : close_env) :
    (_close env).tmp_file_removed = true := by
  rcases env with ⟨m, fd, c, r, f, d, k⟩
  cases m
  · simp only [_close]
    split_ifs <;> rfl
  · rfl

/-- C5 witness: the temporary file is removed on a concrete failing PUT
close (the reopen of the temp file fails). -/
theorem C5_close_removes_temp_file_witness :
    (_close { method := http_method.PUT, fd := 3, close_ok := true, reopen_ok := false,
              fstat_ok := true, dispatch_rc := NE_OK,
              status_klass := 2 }).tmp_file_removed = true :=
  C5_close_removes_temp_file _

/-- C6: a stat call whose derived base name equals the name stored in the
single-slot cache as populated by the most recent readdir step returns the
cached fields, type, modified time and size, with the permission bits
synthesized from the cached type by `_stat_perms`, and issues no network
request. -/
theorem C6_stat_cache_fast_path (res : resource) (uri : List Nat)
    (fetch_rc : Int) (fetch_list : List resource)
    (h : c_basename uri = res.name) :
    _stat (some (readdir_cache_update res)) uri fetch_rc fetch_list =
      { buf := { name := c_basename uri
                 fields := (resourceToFileStat res).fields
                 type := (resourceToFileStat res).type
                 mtime := (resourceToFileStat res).mtime
                 size := (resourceToFileStat res).size
                 mode := some (_stat_perms (resourceToFileStat res).type) }
        ret := 0
        errno_set := none
        used_network := false } := by
  have h2 : c_basename uri = (readdir_cache_update res).name := h.trans rfl
  show (if c_basename uri = (readdir_cache_update res).name then
      ({ buf := { name := c_basename uri
                  fields := (readdir_cache_update res).fields
                  type := (readdir_cache_update res).type
                  mtime := (readdir_cache_update res).mtime
                  size := (readdir_cache_update res).size
                  mode := some (_stat_perms (readdir_cache_update res).type) }
         ret := 0
         errno_set := none
         used_network := false } : stat_outcome)
    else _stat_propfind (c_basename uri) fetch_rc fetch_list) = _
  rw [if_pos h2]
  rfl

/-- C6 witness: after a readdir step on the regular resource "/a" of size
10, a stat of "/a" is served from the cache without network access. -/
theorem C6_stat_cache_fast_path_witness :
    (_stat (some (readdir_cache_update
        { uri := [47, 97], name := [97], type := resr_normal,
          size := 10, modtime := some 5 }))
      [47, 97] NE_ERROR []).used_network = false := by
  rw [C6_stat_cache_fast_path _ _ _ _ (by decide)]

/-- C7: evaluation of the scheme resolution at the failing inputs.  The
secure scheme "ownclouds" leaves the protocol buffer uninitialized (`none`)
instead of resolving to HTTPS, the scheme "owncloud" resolves to HTTP, and
every other scheme (here "http") resolves to HTTPS — the `strcmp` result is
used as a truth value without comparing it to 0, so the claim's mapping
(secure variant to HTTPS, everything else to HTTP) does not hold; the
uninitialized protocol propagates into the default-port and
session-creation step of `dav_connect`. -/
theorem C7_scheme_resolution_inverted :
    resolve_protocol "ownclouds" = none ∧
    resolve_protocol "owncloud" = some protocol.http ∧
    resolve_protocol "http" = some protocol.https ∧
    (dav_connect { connected := false,
                   parse := some { scheme := "ownclouds", host := "example",
                                   port := 0, userinfo := none },
                   sock_init_ok := true,
                   session_create_ok := true }).protocol_used = none := by
  refine ⟨by decide, by decide, by decide, by decide⟩

/-- C8: for every open whose flags request write mode (O_WRONLY, O_RDWR or
O_CREAT), a local temporary file is only ever created after the parent
collection stat succeeded, and when the path is usable but the parent does
not exist, open fails with errno ENOENT, returns NULL, and no temporary
file has been created. -/
theorem C8_open_write_parent_check (flags : open_flags) (env : open_env)
    (hput : flags.o_wronly = true ∨ flags.o_rdwr = true ∨ flags.o_creat = true) :
    ((_open flags env).temp_file_created = true → env.parent_stat_ok = true) ∧
    (env.clean_path_ok = true → env.parent_stat_ok = false →
      _open flags env =
        { handle := false, errno_set := some ENOENT, temp_file_created := false }) := by
  have hputb : (flags.o_wronly || flags.o_rdwr || flags.o_creat) = true := by
    rcases hput with h | h | h <;> simp [h]
  unfold _open
  rw [hputb]
  by_cases hcp : env.clean_path_ok <;> by_cases hps : env.parent_stat_ok <;>
    simp [hcp, hps]

/-- C8 witness: a write-mode open (O_CREAT) with a usable path and a
missing parent collection fails with ENOENT and creates no temporary
file. -/
theorem C8_open_write_parent_check_witness :
    _open { o_wronly := false, o_rdwr := false, o_creat := true }
        { clean_path_ok := true, parent_stat_ok := false, mkstemp_ok := true,
          begin_request_rc := NE_OK, get_rc := NE_OK, get_close_ok := true } =
      { handle := false, errno_set := some ENOENT, temp_file_created := false } :=
  (C8_open_write_parent_check _ _ (Or.inr (Or.inr rfl))).2 rfl rfl

/-- C10: `_unlink` returns 0 to its caller for every combination of
path-cleaning, connect and remote-delete outcomes; failures are recorded
only in the errno side channel of the model. -/
theorem C10_unlink_returns_zero (env : unlink_env) : (_unlink env).ret = 0 := rfl

/-- C10 witness: `_unlink` returns 0 on a concrete run whose remote delete
fails with NE_ERROR. -/
theorem C10_unlink_returns_zero_witness :
    (_unlink { clean_path_ok := true, connect_rc := 0, delete_rc := NE_ERROR }).ret = 0 :=
  C10_unlink_returns_zero _
